import Mathlib

/-!
Verification of the download/validation/install pipeline of the
burncloud-client-models repository.

The development shallowly embeds the two core modules:

* `src/validation.rs` — `ModelValidator` with `validate_model` and its
  individual checks (existence, checksum, format, malware heuristic,
  permissions, dependencies, digital signature);
* `src/download.rs` — `ModelDownloadManager` with `install_model`,
  `get_installed_models`, `verify_checksum` and `calculate_checksum`.

Modelling conventions:

* Rust `String`/`&str` become Lean `String`; byte buffers (`Vec<u8>`)
  become `List Nat`; `u64` sizes become `Nat`; `Uuid` is modelled as a
  `String`; `DateTime<Utc>` timestamps are modelled as `Nat` and supplied
  by the caller (`Utc::now()` becomes an explicit argument).
* The hash functions of the external `sha2`/`md5` crates are opaque
  dependencies of the code, so they are passed in as function parameters
  (`List Nat → String`); every theorem quantifies over them.  Both call
  sites of a hash inside one operation receive the same function, exactly
  as the code always calls the same `Sha256` implementation.
* File-system state is a finite map from absolute paths (lists of
  components, mirroring `std::path::Path` components) to file data.
  Reads of an existing regular file are modelled as succeeding; the
  `io::Error` branches that can only arise from races or permission
  failures underneath an existing readable file are noted in comments.
* Rust `str::to_lowercase` is modelled on the ASCII range (`lowerStr`),
  which is the only range exercised by hex digests and extensions.
-/

namespace BurnCloud

/-- Lowercase one character in the ASCII range (code points 65–90 are
`A`–`Z`), modelling what `str::to_lowercase` does on the characters that
occur in extensions and hex digests. -/
def lowerChar (c : Char) : Char :=
  if 65 ≤ c.toNat ∧ c.toNat ≤ 90 then Char.ofNat (c.toNat + 32) else c

/-- Uppercase one character in the ASCII range (code points 97–122 are
`a`–`z`), modelling `str::to_uppercase`. -/
def upperChar (c : Char) : Char :=
  if 97 ≤ c.toNat ∧ c.toNat ≤ 122 then Char.ofNat (c.toNat - 32) else c

/-- Model of Rust `str::to_lowercase` (ASCII range). -/
def lowerStr (s : String) : String :=
  ⟨s.data.map lowerChar⟩

/-- Model of Rust `str::to_uppercase` (ASCII range). -/
def upperStr (s : String) : String :=
  ⟨s.data.map upperChar⟩

theorem toNat_ofNat_of_valid {n : Nat} (h : n.isValidChar) :
    (Char.ofNat n).toNat = n := by
  rw [Char.ofNat, dif_pos h]
  rfl

theorem lowerChar_upperChar (c : Char) :
    lowerChar (upperChar c) = lowerChar c := by
  by_cases h : 97 ≤ c.toNat ∧ c.toNat ≤ 122
  · have hval : Nat.isValidChar (c.toNat - 32) := Or.inl (by omega)
    have ht : (Char.ofNat (c.toNat - 32)).toNat = c.toNat - 32 :=
      toNat_ofNat_of_valid hval
    rw [upperChar, if_pos h, lowerChar,
      if_pos (by rw [ht]; exact ⟨by omega, by omega⟩), ht,
      Nat.sub_add_cancel (by omega), Char.ofNat_toNat, lowerChar,
      if_neg (by omega)]
  · rw [upperChar, if_neg h]

theorem lowerChar_lowerChar (c : Char) :
    lowerChar (lowerChar c) = lowerChar c := by
  by_cases h : 65 ≤ c.toNat ∧ c.toNat ≤ 90
  · have hval : Nat.isValidChar (c.toNat + 32) := Or.inl (by omega)
    have ht : (Char.ofNat (c.toNat + 32)).toNat = c.toNat + 32 :=
      toNat_ofNat_of_valid hval
    have hinner : lowerChar c = Char.ofNat (c.toNat + 32) := by
      rw [lowerChar, if_pos h]
    rw [hinner, lowerChar, if_neg (by rw [ht]; omega)]
  · have hinner : lowerChar c = c := by
      rw [lowerChar, if_neg h]
    rw [hinner]
    exact hinner

theorem lowerStr_upperStr (s : String) :
    lowerStr (upperStr s) = lowerStr s := by
  have hfun : lowerChar ∘ upperChar = lowerChar :=
    funext lowerChar_upperChar
  show String.mk ((s.data.map upperChar).map lowerChar) =
    String.mk (s.data.map lowerChar)
  rw [List.map_map, hfun]

theorem lowerStr_lowerStr (s : String) :
    lowerStr (lowerStr s) = lowerStr s := by
  have hfun : lowerChar ∘ lowerChar = lowerChar :=
    funext lowerChar_lowerChar
  show String.mk ((s.data.map lowerChar).map lowerChar) =
    String.mk (s.data.map lowerChar)
  rw [List.map_map, hfun]

/-- Model of `std::path::Path::extension` applied to a file name: the part
of the final component after the last `.`, unless the component is `..`,
has no `.`, or its only `.` is the leading character. -/
def rustExtension (name : String) : Option String :=
  let cs := name.data
  if cs = ['.', '.'] then none
  else
    match ((List.range cs.length).filter
        (fun i => cs.get? i == some '.')).getLast? with
    | none => none
    | some 0 => none
    | some i => some ⟨cs.drop (i + 1)⟩

/-- The 4 magic bytes `b"GGUF"`. -/
def magicGGUF : List Nat := [71, 71, 85, 70]

/-- The 4 magic bytes `b"GGML"`. -/
def magicGGML : List Nat := [71, 71, 77, 76]

/-- Model of a `serde_json::Value`.  `PathBuf` values are serialized via a
dedicated constructor carrying the path components. -/
inductive JVal where
  | str (s : String)
  | num (n : Nat)
  | arr (xs : List JVal)
  | pathv (p : List String)
  | obj (fields : List (String × JVal))
  | null

/-- An absolute path, as its list of components. -/
abbrev RPath := List String

/-- Contents of one regular file: raw bytes, or a JSON document (as
written by `serde_json::to_string_pretty`). -/
inductive FileData where
  | raw (bytes : List Nat)
  | json (v : JVal)

/-- A file-system snapshot: a finite map from paths to regular files
(directories are implicit as path prefixes). -/
abbrev FS := List (RPath × FileData)

def lookupFS : FS → RPath → Option FileData
  | [], _ => none
  | (q, d) :: rest, p => if q = p then some d else lookupFS rest p

def eraseFS (fs : FS) (p : RPath) : FS :=
  fs.filter (fun e => e.1 ≠ p)

def insertFS (fs : FS) (p : RPath) (d : FileData) : FS :=
  (p, d) :: eraseFS fs p

theorem lookupFS_eraseFS_self (fs : FS) (p : RPath) :
    lookupFS (eraseFS fs p) p = none := by
  induction fs with
  | nil => rfl
  | cons e rest ih =>
    by_cases h : e.1 = p
    · simpa [eraseFS, h] using ih
    · simpa [eraseFS, lookupFS, h] using ih

theorem lookupFS_eraseFS_ne (fs : FS) (p q : RPath) (h : q ≠ p) :
    lookupFS (eraseFS fs p) q = lookupFS fs q := by
  induction fs with
  | nil => rfl
  | cons e rest ih =>
    simp only [eraseFS, List.filter_cons, ne_eq, decide_not] at ih ⊢
    by_cases he : e.1 = p
    · have hq : ¬ e.1 = q := fun hq => h (hq.symm.trans he)
      have hpq : ¬ p = q := fun hpq => h hpq.symm
      simp [he, lookupFS, hq, hpq, ih]
    · by_cases hq : e.1 = q
      · simp [he, lookupFS, hq, h]
      · simp [he, lookupFS, hq, ih]

theorem lookupFS_insertFS_self (fs : FS) (p : RPath) (d : FileData) :
    lookupFS (insertFS fs p d) p = some d := by
  simp [insertFS, lookupFS]

theorem lookupFS_insertFS_ne (fs : FS) (p q : RPath) (d : FileData)
    (h : q ≠ p) : lookupFS (insertFS fs p d) q = lookupFS fs q := by
  simp only [insertFS, lookupFS]
  rw [if_neg (fun hq => h (hq.symm))]
  exact lookupFS_eraseFS_ne fs p q h

/-! ## Model of `src/validation.rs` -/

/-- `CheckType` from `validation.rs`. -/
inductive CheckType where
  | FileExists | FileSize | Checksum | FileFormat | ModelStructure
  | Dependencies | Permissions | MalwareCheck | DigitalSignature
  | VersionCompatibility
  deriving DecidableEq

/-- `CheckStatus` from `validation.rs`. -/
inductive CheckStatus where
  | Passed | Failed | Warning | Skipped
  deriving DecidableEq

/-- `ErrorType` from `validation.rs`. -/
inductive ErrorType where
  | CorruptedFile | InvalidFormat | ChecksumMismatch | MissingDependencies
  | SecurityRisk | VersionIncompatibility | PermissionDenied | UnknownError
  deriving DecidableEq

/-- `ErrorSeverity` from `validation.rs`. -/
inductive ErrorSeverity where
  | Low | Medium | High | Critical
  deriving DecidableEq, BEq

/-- `WarningType` from `validation.rs`. -/
inductive WarningType where
  | PerformanceIssue | CompatibilityIssue | SecurityConcern
  | DeprecatedFeature | ResourceUsage
  deriving DecidableEq

/-- `ModelFormat` from `validation.rs`. -/
inductive ModelFormat where
  | GGUF | GGML | SafeTensors | PyTorch | TensorFlow | ONNX | Huggingface
  | Unknown (ext : String)
  deriving DecidableEq

/-- `ChecksumType` from `validation.rs`. -/
inductive ChecksumType where
  | MD5 | SHA256 | SHA512
  deriving DecidableEq

/-- `ValidationCheck` from `validation.rs`.  `details` is a
`serde_json::Value`, modelled by `JVal`. -/
structure ValidationCheck where
  check_type : CheckType
  status : CheckStatus
  message : String
  details : Option JVal

/-- `ValidationError` from `validation.rs`. -/
structure ValidationError where
  error_type : ErrorType
  message : String
  severity : ErrorSeverity
  details : Option JVal

/-- `ValidationWarning` from `validation.rs`. -/
structure ValidationWarning where
  warning_type : WarningType
  message : String
  recommendation : String

/-- `ModelMetadata` from `validation.rs` (fields the code always leaves
`None` are kept for shape). -/
structure ModelMetadata where
  file_size : Nat
  checksum_sha256 : String
  file_type : String
  mime_type : Option String
  creation_time : Option Nat
  modification_time : Option Nat
  permissions : Nat
  is_executable : Bool
  architecture : Option String
  model_format : Option ModelFormat

/-- `ValidationConfig` from `validation.rs`. -/
structure ValidationConfig where
  enable_checksum_verification : Bool
  enable_malware_scanning : Bool
  enable_format_validation : Bool
  enable_dependency_check : Bool
  enable_permission_check : Bool
  strict_mode : Bool
  timeout_seconds : Nat
  quarantine_suspicious_files : Bool

/-- `ValidationConfig::default()`. -/
def ValidationConfig.default : ValidationConfig :=
  { enable_checksum_verification := true
    enable_malware_scanning := true
    enable_format_validation := true
    enable_dependency_check := false
    enable_permission_check := true
    strict_mode := false
    timeout_seconds := 120
    quarantine_suspicious_files := false }

/-- `ValidatorError` from `validation.rs` (payloads carried by the
external `io::Error`/`serde_json::Error` are not modelled). -/
inductive ValidatorError where
  | IoError
  | JsonError
  | TimeoutError
  | FileNotFound (p : String)
  | AccessDenied (p : String)
  | UnsupportedFormat (p : String)
  | ConfigError (msg : String)
  deriving DecidableEq

/-- The state of the one file a `validate_model` call inspects: its final
path component (`file_name`), whether the path exists and is a regular
file, its byte content and whether its permissions are read-only.
Reads of an existing regular file are modelled as succeeding. -/
structure MFile where
  name : String
  fileExists : Bool
  isFile : Bool
  content : List Nat
  readonly : Bool

/-- `ModelValidator`: only the key set of `known_signatures` is ever
consulted (`contains_key` in `verify_digital_signature`), so the map is
modelled by its list of keys.  `temp_dir` is unused by `validate_model`. -/
structure ModelValidator where
  known_signatures : List String

/-- `ValidationResult` from `validation.rs`. -/
structure ValidationResult where
  model_id : String
  model_path : String
  is_valid : Bool
  validation_time : Nat
  checks_performed : List ValidationCheck
  errors : List ValidationError
  warnings : List ValidationWarning
  metadata : ModelMetadata

/-- `ModelValidator::check_file_exists`: `path.exists() && path.is_file()`. -/
def check_file_exists (f : MFile) : ValidationCheck :=
  if f.fileExists && f.isFile then
    { check_type := CheckType.FileExists, status := CheckStatus.Passed
      message := "文件存在", details := none }
  else
    { check_type := CheckType.FileExists, status := CheckStatus.Failed
      message := "文件不存在或不是有效文件", details := none }

/-- `ModelValidator::calculate_sha256`: reads the file and hashes the
content with the `sha2` crate's SHA-256, modelled by the parameter
`sha256hex`.  The read of the existing file succeeds in this model. -/
def calculate_sha256 (sha256hex : List Nat → String) (f : MFile) : String :=
  sha256hex f.content

/-- `ModelValidator::detect_file_type`: the extension, `"unknown"` when
absent. -/
def detect_file_type (f : MFile) : String :=
  (rustExtension f.name).getD "unknown"

/-- `ModelValidator::detect_model_format`: match the lowercased extension
first; fall back to the `GGUF`/`GGML` magic bytes; otherwise `Unknown`
carrying the original (non-lowercased) extension. -/
def detect_model_format (name : String) (content : List Nat) : ModelFormat :=
  let extension := (rustExtension name).getD ""
  let e := lowerStr extension
  if e = "gguf" then ModelFormat.GGUF
  else if e = "ggml" then ModelFormat.GGML
  else if e = "safetensors" then ModelFormat.SafeTensors
  else if e = "pt" ∨ e = "pth" then ModelFormat.PyTorch
  else if e = "pb" then ModelFormat.TensorFlow
  else if e = "onnx" then ModelFormat.ONNX
  else if magicGGUF.isPrefixOf content then ModelFormat.GGUF
  else if magicGGML.isPrefixOf content then ModelFormat.GGML
  else ModelFormat.Unknown extension

/-- `ModelValidator::extract_metadata`: size, SHA-256 of the content,
detected type and format; the remaining fields are the constants the code
writes. -/
def extract_metadata (sha256hex : List Nat → String) (f : MFile) :
    ModelMetadata :=
  { file_size := f.content.length
    checksum_sha256 := sha256hex f.content
    file_type := detect_file_type f
    mime_type := none
    creation_time := none
    modification_time := none
    permissions := 0o644
    is_executable := false
    architecture := none
    model_format := some (detect_model_format f.name f.content) }

/-- `ModelValidator::verify_checksum`: recompute the SHA-256 and compare
case-insensitively to `expected` (the `Err` branch of
`calculate_sha256` cannot arise for an existing readable file in this
model). -/
def verify_checksum (sha256hex : List Nat → String) (f : MFile)
    (expected : String) : ValidationCheck :=
  let actual := calculate_sha256 sha256hex f
  if lowerStr actual = lowerStr expected then
    { check_type := CheckType.Checksum, status := CheckStatus.Passed
      message := "校验和匹配"
      details := some (JVal.obj [("expected", JVal.str expected),
        ("actual", JVal.str actual)]) }
  else
    { check_type := CheckType.Checksum, status := CheckStatus.Failed
      message := "校验和不匹配"
      details := some (JVal.obj [("expected", JVal.str expected),
        ("actual", JVal.str actual)]) }

/-- Debug rendering of a `ModelFormat` (the `{:?}` used in the format
check's message). -/
def formatDebug : ModelFormat → String
  | ModelFormat.GGUF => "GGUF"
  | ModelFormat.GGML => "GGML"
  | ModelFormat.SafeTensors => "SafeTensors"
  | ModelFormat.PyTorch => "PyTorch"
  | ModelFormat.TensorFlow => "TensorFlow"
  | ModelFormat.ONNX => "ONNX"
  | ModelFormat.Huggingface => "Huggingface"
  | ModelFormat.Unknown e => "Unknown(\"" ++ e ++ "\")"

/-- `ModelValidator::validate_file_format` over the extracted metadata. -/
def validate_file_format (metadata : ModelMetadata) : ValidationCheck :=
  match metadata.model_format with
  | some (ModelFormat.Unknown _) =>
    { check_type := CheckType.FileFormat, status := CheckStatus.Warning
      message := "未知文件格式", details := none }
  | some format =>
    { check_type := CheckType.FileFormat, status := CheckStatus.Passed
      message := "支持的格式: " ++ formatDebug format, details := none }
  | none =>
    { check_type := CheckType.FileFormat, status := CheckStatus.Failed
      message := "无法检测文件格式", details := none }

/-- The denylist of `scan_for_malware`. -/
def suspicious_extensions : List String := ["exe", "bat", "cmd", "scr", "com"]

/-- `ModelValidator::scan_for_malware`: exact (case-sensitive) membership
of the extension in the denylist. -/
def scan_for_malware (f : MFile) : ValidationCheck :=
  let extension := (rustExtension f.name).getD ""
  if extension ∈ suspicious_extensions then
    { check_type := CheckType.MalwareCheck, status := CheckStatus.Failed
      message := "检测到可疑文件类型"
      details := some (JVal.obj [("extension", JVal.str extension)]) }
  else
    { check_type := CheckType.MalwareCheck, status := CheckStatus.Passed
      message := "未检测到恶意软件", details := none }

/-- `ModelValidator::check_permissions` (the `Failed` branch needs the
`metadata` call on an existing file to fail, which this model excludes). -/
def check_permissions (f : MFile) : ValidationCheck :=
  if f.readonly then
    { check_type := CheckType.Permissions, status := CheckStatus.Passed
      message := "文件权限正常", details := none }
  else
    { check_type := CheckType.Permissions, status := CheckStatus.Warning
      message := "文件具有写权限", details := none }

/-- `ModelValidator::check_dependencies`: always passes. -/
def check_dependencies (_f : MFile) : ValidationCheck :=
  { check_type := CheckType.Dependencies, status := CheckStatus.Passed
    message := "依赖检查通过", details := none }

/-- `ModelValidator::verify_digital_signature`: `Passed` when the file
name is a key of `known_signatures`, otherwise `Warning` (never
`Failed`). -/
def verify_digital_signature (v : ModelValidator) (f : MFile) :
    ValidationCheck :=
  if f.name ∈ v.known_signatures then
    { check_type := CheckType.DigitalSignature, status := CheckStatus.Passed
      message := "找到已知签名", details := none }
  else
    { check_type := CheckType.DigitalSignature, status := CheckStatus.Warning
      message := "未找到数字签名", details := none }

/-- The error pushed when the existence check fails (severity
`Critical`; the message interpolates the path). -/
def corruptedFileError (f : MFile) : ValidationError :=
  { error_type := ErrorType.CorruptedFile
    message := "模型文件不存在: " ++ f.name
    severity := ErrorSeverity.Critical, details := none }

/-- The empty metadata returned on the early-exit path. -/
def emptyMetadata : ModelMetadata :=
  { file_size := 0, checksum_sha256 := "", file_type := ""
    mime_type := none, creation_time := none, modification_time := none
    permissions := 0, is_executable := false, architecture := none
    model_format := none }

/-- The checks pushed by steps 1 and 3–8 of `validate_model`, in program
order (each enabled check appends exactly one record; the digital
signature check always runs). -/
def collectedChecks (sha256hex : List Nat → String) (v : ModelValidator)
    (f : MFile) (config : ValidationConfig) : List ValidationCheck :=
  let metadata := extract_metadata sha256hex f
  [check_file_exists f]
    ++ (if config.enable_checksum_verification then
          [verify_checksum sha256hex f metadata.checksum_sha256] else [])
    ++ (if config.enable_format_validation then
          [validate_file_format metadata] else [])
    ++ (if config.enable_malware_scanning then
          [scan_for_malware f] else [])
    ++ (if config.enable_permission_check then
          [check_permissions f] else [])
    ++ (if config.enable_dependency_check then
          [check_dependencies f] else [])
    ++ [verify_digital_signature v f]

/-- The High `ChecksumMismatch` error pushed when the checksum check
failed. -/
def checksumMismatchError : ValidationError :=
  { error_type := ErrorType.ChecksumMismatch, message := "文件校验和不匹配",
    severity := ErrorSeverity.High, details := none }

/-- The Medium `InvalidFormat` error pushed when the format check
failed. -/
def invalidFormatError : ValidationError :=
  { error_type := ErrorType.InvalidFormat, message := "不支持的文件格式",
    severity := ErrorSeverity.Medium, details := none }

/-- The Critical `SecurityRisk` error pushed when the malware check
failed. -/
def malwareSecurityError : ValidationError :=
  { error_type := ErrorType.SecurityRisk, message := "检测到安全威胁",
    severity := ErrorSeverity.Critical, details := none }

/-- The High `SecurityRisk` error pushed when the signature check failed
in strict mode. -/
def signatureSecurityError : ValidationError :=
  { error_type := ErrorType.SecurityRisk, message := "数字签名验证失败",
    severity := ErrorSeverity.High, details := none }

/-- The warning pushed when the permission check warned. -/
def permissionWarning : ValidationWarning :=
  { warning_type := WarningType.SecurityConcern,
    message := "文件权限可能存在安全风险",
    recommendation := "请检查文件权限设置" }

/-- The warning pushed when the dependency check warned. -/
def dependencyWarning : ValidationWarning :=
  { warning_type := WarningType.CompatibilityIssue,
    message := "可能缺少某些依赖项",
    recommendation := "请确保安装了所需的依赖项" }

/-- The warning pushed when the signature check warned. -/
def unsignedFileWarning : ValidationWarning :=
  { warning_type := WarningType.SecurityConcern,
    message := "文件未签名或签名无法验证",
    recommendation := "请仅使用来源可信的模型文件" }

/-- The errors pushed by `validate_model` when the existence check has
passed, in program order: a High `ChecksumMismatch` when the checksum
check failed, a Medium `InvalidFormat` when the format check failed, a
Critical `SecurityRisk` when the malware check failed, and a High
`SecurityRisk` when the signature check failed in strict mode. -/
def collectedErrors (sha256hex : List Nat → String) (v : ModelValidator)
    (f : MFile) (config : ValidationConfig) : List ValidationError :=
  let metadata := extract_metadata sha256hex f
  (if config.enable_checksum_verification ∧
      (verify_checksum sha256hex f metadata.checksum_sha256).status =
        CheckStatus.Failed then
    [checksumMismatchError] else [])
  ++ (if config.enable_format_validation ∧
      (validate_file_format metadata).status = CheckStatus.Failed then
    [invalidFormatError] else [])
  ++ (if config.enable_malware_scanning ∧
      (scan_for_malware f).status = CheckStatus.Failed then
    [malwareSecurityError] else [])
  ++ (if (verify_digital_signature v f).status = CheckStatus.Failed ∧
      config.strict_mode then
    [signatureSecurityError] else [])

/-- The warnings pushed by `validate_model` when the existence check has
passed, in program order (the signature warning sits in the `else if` of
the strict-mode error push). -/
def collectedWarnings (v : ModelValidator) (f : MFile)
    (config : ValidationConfig) : List ValidationWarning :=
  (if config.enable_permission_check ∧
      (check_permissions f).status = CheckStatus.Warning then
    [permissionWarning] else [])
  ++ (if config.enable_dependency_check ∧
      (check_dependencies f).status = CheckStatus.Warning then
    [dependencyWarning] else [])
  ++ (if ¬((verify_digital_signature v f).status = CheckStatus.Failed ∧
        config.strict_mode) ∧
      (verify_digital_signature v f).status = CheckStatus.Warning then
    [unsignedFileWarning] else [])

/-- The final verdict of `validate_model`:
`!has_critical_errors && (!strict_mode || !has_high_errors)`. -/
def validVerdict (config : ValidationConfig)
    (errors : List ValidationError) : Bool :=
  let has_critical_errors :=
    errors.any (fun e => e.severity == ErrorSeverity.Critical)
  let has_high_errors :=
    errors.any (fun e => e.severity == ErrorSeverity.High)
  !has_critical_errors && (!config.strict_mode || !has_high_errors)

/-- `ModelValidator::validate_model`.  `fresh_id` models the
`Uuid::new_v4()` fallback and `now` the `Utc::now()` start time.  When the
existence check does not pass, the function returns early with the single
failed check, the `Critical` `CorruptedFile` error and empty metadata;
otherwise it runs the remaining checks and aggregates.  No fallible
operation runs on the early-exit path, and reads of the existing regular
file succeed in this model, so the result is always `Ok`. -/
def validate_model (sha256hex : List Nat → String) (v : ModelValidator)
    (f : MFile) (model_id : Option String) (fresh_id : String) (now : Nat)
    (config : ValidationConfig) :
    Except ValidatorError ValidationResult :=
  let mid := model_id.getD fresh_id
  let file_exists_check := check_file_exists f
  if file_exists_check.status = CheckStatus.Passed then
    let errors := collectedErrors sha256hex v f config
    Except.ok
      { model_id := mid
        model_path := f.name
        is_valid := validVerdict config errors
        validation_time := now
        checks_performed := collectedChecks sha256hex v f config
        errors := errors
        warnings := collectedWarnings v f config
        metadata := extract_metadata sha256hex f }
  else
    Except.ok
      { model_id := mid
        model_path := f.name
        is_valid := false
        validation_time := now
        checks_performed := [file_exists_check]
        errors := if file_exists_check.status = CheckStatus.Failed then
            [corruptedFileError f] else []
        warnings := []
        metadata := emptyMetadata }

/-! ## Model of `src/download.rs` -/

/-- The digest functions of the external `md5`/`sha2` crates, as opaque
parameters producing hex strings. -/
structure HashFns where
  md5 : List Nat → String
  sha256 : List Nat → String
  sha512 : List Nat → String

/-- `DownloadError` from `download.rs` (payloads carried by the external
`reqwest`/`io`/`serde_json` errors are not modelled). -/
inductive DownloadError where
  | NetworkError
  | IoError
  | ChecksumMismatch (expected : String) (actual : String)
  | InsufficientSpace (required : Nat) (available : Nat)
  | PermissionDenied (msg : String)
  | ModelAlreadyExists (msg : String)
  | InvalidUrl (msg : String)
  | InstallationFailed (msg : String)
  | ConfigError (msg : String)
  | SerializationError
  deriving DecidableEq

/-- `InstallationConfig` from `download.rs`. -/
structure InstallationConfig where
  auto_verify : Bool
  keep_temp_files : Bool
  create_symlink : Bool
  install_dependencies : Bool
  enable_gpu : Bool
  custom_install_path : Option RPath

/-- `InstallationConfig::default()`. -/
def InstallationConfig.default : InstallationConfig :=
  { auto_verify := true, keep_temp_files := false, create_symlink := false
    install_dependencies := true, enable_gpu := false
    custom_install_path := none }

/-- `InstallationMetadata` from `download.rs`. -/
structure InstallationMetadata where
  config_files : List RPath
  data_files : List RPath
  executable_files : List RPath
  documentation : List RPath
  symlinks : List (RPath × RPath)

/-- `ModelInstallation` from `download.rs`. -/
structure ModelInstallation where
  model_id : String
  install_path : RPath
  version : String
  installed_at : Nat
  file_size : Nat
  checksum : String
  dependencies : List String
  metadata : InstallationMetadata

/-- The `serde_json::json!` document `install_model` writes into
`model.json`: exactly the five fields `model_id`, `installed_at`,
`version`, `file_size`, `checksum`. -/
def descriptorJson (model_id : String) (now : Nat) (version : String)
    (file_size : Nat) (checksum : String) : JVal :=
  JVal.obj [("model_id", JVal.str model_id),
    ("installed_at", JVal.num now),
    ("version", JVal.str version),
    ("file_size", JVal.num file_size),
    ("checksum", JVal.str checksum)]

/-- Field lookup in a JSON object (first occurrence). -/
def jLookup (fields : List (String × JVal)) (k : String) : Option JVal :=
  (fields.find? (fun e => e.1 == k)).map (fun e => e.2)

def jStr : JVal → Option String
  | JVal.str s => some s
  | _ => none

def jNum : JVal → Option Nat
  | JVal.num n => some n
  | _ => none

def jPath : JVal → Option RPath
  | JVal.pathv p => some p
  | _ => none

def jStrList : JVal → Option (List String)
  | JVal.arr xs => xs.mapM jStr
  | _ => none

def jPathList : JVal → Option (List RPath)
  | JVal.arr xs => xs.mapM jPath
  | _ => none

def jPairList : JVal → Option (List (RPath × RPath))
  | JVal.arr xs => xs.mapM (fun x =>
      match x with
      | JVal.arr [a, b] => do
        let pa ← jPath a
        let pb ← jPath b
        some (pa, pb)
      | _ => none)
  | _ => none

/-- `serde` deserialization of `InstallationMetadata`: every field is
required (none is `Option` or has a default). -/
def parseInstallationMetadata (v : JVal) : Option InstallationMetadata :=
  match v with
  | JVal.obj fields => do
    let cf ← jPathList (← jLookup fields "config_files")
    let df ← jPathList (← jLookup fields "data_files")
    let ef ← jPathList (← jLookup fields "executable_files")
    let doc ← jPathList (← jLookup fields "documentation")
    let sl ← jPairList (← jLookup fields "symlinks")
    some { config_files := cf, data_files := df, executable_files := ef
           documentation := doc, symlinks := sl }
  | _ => none

/-- `serde_json::from_str::<ModelInstallation>`: all eight struct fields
are required (none is `Option` or carries a serde default), so a document
missing any of them fails to deserialize.  Raw bytes are not a JSON
document for this struct. -/
def parseModelInstallation (d : FileData) : Option ModelInstallation :=
  match d with
  | FileData.raw _ => none
  | FileData.json (JVal.obj fields) => do
    let mid ← jStr (← jLookup fields "model_id")
    let ip ← jPath (← jLookup fields "install_path")
    let ver ← jStr (← jLookup fields "version")
    let iat ← jNum (← jLookup fields "installed_at")
    let fsz ← jNum (← jLookup fields "file_size")
    let ck ← jStr (← jLookup fields "checksum")
    let deps ← jStrList (← jLookup fields "dependencies")
    let meta ← parseInstallationMetadata (← jLookup fields "metadata")
    some { model_id := mid, install_path := ip, version := ver
           installed_at := iat, file_size := fsz, checksum := ck
           dependencies := deps, metadata := meta }
  | FileData.json _ => none

/-- Byte length of a stored file, as `fs::metadata(..).len()` reports it
(the size of a serialized JSON descriptor is not modelled). -/
def dataLen : FileData → Nat
  | FileData.raw bytes => bytes.length
  | FileData.json _ => 0

/-- Byte content of a stored file, as a whole-file read returns it (the
byte rendering of a JSON descriptor is not modelled). -/
def dataBytes : FileData → List Nat
  | FileData.raw bytes => bytes
  | FileData.json _ => []

/-- `ModelDownloadManager`: the directories that `install_model` and
`get_installed_models` consult (`max_concurrent_downloads` and the HTTP
client play no role in them). -/
structure ModelDownloadManager where
  download_dir : RPath
  temp_dir : RPath

namespace ModelDownloadManager

/-- `ModelDownloadManager::new`: the temp directory is
`download_dir/temp`. -/
def new (download_dir : RPath) : ModelDownloadManager :=
  { download_dir := download_dir, temp_dir := download_dir ++ ["temp"] }

/-- `ModelDownloadManager::calculate_checksum` on already-read content. -/
def calculate_checksum (hashes : HashFns) (content : List Nat) :
    ChecksumType → String
  | ChecksumType.MD5 => hashes.md5 content
  | ChecksumType.SHA256 => hashes.sha256 content
  | ChecksumType.SHA512 => hashes.sha512 content

/-- `ModelDownloadManager::verify_checksum`: recompute and compare
case-insensitively; on mismatch fail with both digests. -/
def verify_checksum (hashes : HashFns) (content : List Nat)
    (expected : String) (checksum_type : ChecksumType) :
    Except DownloadError Unit :=
  let actual := calculate_checksum hashes content checksum_type
  if lowerStr actual ≠ lowerStr expected then
    Except.error (DownloadError.ChecksumMismatch expected actual)
  else
    Except.ok ()

/-- `ModelDownloadManager::install_model` as a file-system transformer.
The symlink and copy branches both materialize the source's data at the
target in this content-level model (and both fail with an I/O error when
the source is missing: the copy directly, the symlink at the following
`metadata` stat through the dangling link). -/
def install_model (hashes : HashFns) (now : Nat)
    (mgr : ModelDownloadManager) (model_id : String) (model_path : RPath)
    (config : InstallationConfig) (fs : FS) :
    Except DownloadError (ModelInstallation × FS) :=
  let install_path := config.custom_install_path.getD
    (mgr.download_dir ++ ["installed", model_id])
  match model_path.getLast? with
  | none => Except.error (DownloadError.ConfigError "无效的模型文件路径")
  | some model_file_name =>
    let target_path := install_path ++ [model_file_name]
    match lookupFS fs model_path with
    | none => Except.error DownloadError.IoError
    | some src =>
      let fs1 := insertFS fs target_path src
      let file_size := dataLen src
      let checksum := if config.auto_verify then
          calculate_checksum hashes (dataBytes src) ChecksumType.SHA256
        else ""
      let config_path := install_path ++ ["model.json"]
      let fs2 := insertFS fs1 config_path
        (FileData.json (descriptorJson model_id now "1.0.0" file_size checksum))
      let fs3 := if !config.keep_temp_files &&
          mgr.temp_dir.isPrefixOf model_path then
        eraseFS fs2 model_path else fs2
      Except.ok
        ({ model_id := model_id
           install_path := install_path
           version := "1.0.0"
           installed_at := now
           file_size := file_size
           checksum := checksum
           dependencies := []
           metadata :=
            { config_files := [config_path]
              data_files := [target_path]
              executable_files := []
              documentation := []
              symlinks := if config.create_symlink then
                  [(model_path, target_path)] else [] } }, fs3)

end ModelDownloadManager

/-- Deduplicate keeping the first occurrence (directory-entry listing
yields each entry once). -/
def dedupAux : List String → List String → List String
  | [], _ => []
  | x :: xs, seen =>
    if x ∈ seen then dedupAux xs seen else x :: dedupAux xs (x :: seen)

def dedupKeepFirst (l : List String) : List String :=
  dedupAux l []

/-- The entries of directory `base` that are themselves directories: the
distinct next components of stored paths strictly below a child of
`base` (a regular file directly inside `base` is not a directory and is
skipped, matching the `file_type().is_dir()` filter). -/
def childDirs (fs : FS) (base : RPath) : List String :=
  dedupKeepFirst (fs.filterMap (fun e =>
    if base.isPrefixOf e.1 ∧ base.length + 1 < e.1.length then
      e.1.get? base.length
    else none))

namespace ModelDownloadManager

/-- `ModelDownloadManager::get_installed_models`: scan
`download_dir/installed`, and for each child directory holding a
`model.json`, deserialize it, silently skipping entries that fail to
parse.  Directory iteration is modelled as infallible. -/
def get_installed_models (mgr : ModelDownloadManager) (fs : FS) :
    List ModelInstallation :=
  let installed_dir := mgr.download_dir ++ ["installed"]
  (childDirs fs installed_dir).filterMap (fun c =>
    match lookupFS fs (installed_dir ++ [c, "model.json"]) with
    | some d => parseModelInstallation d
    | none => none)

end ModelDownloadManager

/-! ## Helper lemmas -/

/-- Extract the payload of a successful `Except`. -/
def exceptOk? : Except ε α → Option α
  | Except.ok a => some a
  | Except.error _ => none

theorem mem_if_list {α : Type} {p : Prop} [Decidable p] {x : α}
    {l : List α} : (x ∈ if p then l else []) ↔ p ∧ x ∈ l := by
  split <;> simp_all

theorem check_file_exists_type (f : MFile) :
    (check_file_exists f).check_type = CheckType.FileExists := by
  unfold check_file_exists
  split <;> rfl

theorem verify_checksum_type (s : List Nat → String) (f : MFile)
    (e : String) :
    (verify_checksum s f e).check_type = CheckType.Checksum := by
  simp only [verify_checksum]
  split <;> rfl

theorem validate_file_format_type (m : ModelMetadata) :
    (validate_file_format m).check_type = CheckType.FileFormat := by
  unfold validate_file_format
  rcases m.model_format with _ | fmt
  · rfl
  · cases fmt <;> rfl

theorem scan_for_malware_type (f : MFile) :
    (scan_for_malware f).check_type = CheckType.MalwareCheck := by
  simp only [scan_for_malware]
  split <;> rfl

theorem check_permissions_type (f : MFile) :
    (check_permissions f).check_type = CheckType.Permissions := by
  unfold check_permissions
  split <;> rfl

theorem check_dependencies_type (f : MFile) :
    (check_dependencies f).check_type = CheckType.Dependencies := rfl

theorem verify_digital_signature_type (v : ModelValidator) (f : MFile) :
    (verify_digital_signature v f).check_type =
      CheckType.DigitalSignature := by
  unfold verify_digital_signature
  split <;> rfl

/-- The checksum check of `validate_model` compares the file's hash with
the hash extracted from the same content, so it always passes. -/
theorem verify_checksum_self_passed (s : List Nat → String) (f : MFile) :
    (verify_checksum s f (extract_metadata s f).checksum_sha256).status =
      CheckStatus.Passed := by
  simp [verify_checksum, calculate_sha256, extract_metadata]

/-- The format check never fails on extracted metadata, because
`extract_metadata` always stores `Some` format. -/
theorem validate_file_format_extract_not_failed
    (s : List Nat → String) (f : MFile) :
    (validate_file_format (extract_metadata s f)).status ≠
      CheckStatus.Failed := by
  unfold validate_file_format extract_metadata
  cases detect_model_format f.name f.content <;> simp

theorem check_permissions_not_failed (f : MFile) :
    (check_permissions f).status ≠ CheckStatus.Failed := by
  unfold check_permissions
  split <;> simp

/-- `verify_digital_signature` only returns `Passed` or `Warning`. -/
theorem verify_digital_signature_not_failed (v : ModelValidator)
    (f : MFile) :
    (verify_digital_signature v f).status ≠ CheckStatus.Failed := by
  unfold verify_digital_signature
  split <;> simp

theorem verify_digital_signature_warning (v : ModelValidator) (f : MFile)
    (h : f.name ∉ v.known_signatures) :
    (verify_digital_signature v f).status = CheckStatus.Warning := by
  simp [verify_digital_signature, h]

theorem scan_for_malware_failed (f : MFile)
    (h : (rustExtension f.name).getD "" ∈ suspicious_extensions) :
    (scan_for_malware f).status = CheckStatus.Failed := by
  simp [scan_for_malware, h]

theorem scan_for_malware_passed (f : MFile)
    (h : (rustExtension f.name).getD "" ∉ suspicious_extensions) :
    (scan_for_malware f).status = CheckStatus.Passed := by
  simp [scan_for_malware, h]

theorem check_file_exists_passed (f : MFile) (hex : f.fileExists = true)
    (hfile : f.isFile = true) :
    (check_file_exists f).status = CheckStatus.Passed := by
  simp [check_file_exists, hex, hfile]

theorem validVerdict_eq_false_of_critical {cfg : ValidationConfig}
    {E : List ValidationError} {e : ValidationError} (he : e ∈ E)
    (hc : e.severity = ErrorSeverity.Critical) :
    validVerdict cfg E = false := by
  unfold validVerdict
  have hany : E.any (fun e => e.severity == ErrorSeverity.Critical) =
      true := List.any_eq_true.mpr ⟨e, he, by rw [hc]; rfl⟩
  simp [hany]

/-- Membership in the collected check list, check by check. -/
theorem mem_collectedChecks {sha256hex : List Nat → String}
    {v : ModelValidator} {f : MFile} {cfg : ValidationConfig}
    {c : ValidationCheck} :
    c ∈ collectedChecks sha256hex v f cfg ↔
      c = check_file_exists f
      ∨ (cfg.enable_checksum_verification = true ∧
          c = verify_checksum sha256hex f
            (extract_metadata sha256hex f).checksum_sha256)
      ∨ (cfg.enable_format_validation = true ∧
          c = validate_file_format (extract_metadata sha256hex f))
      ∨ (cfg.enable_malware_scanning = true ∧ c = scan_for_malware f)
      ∨ (cfg.enable_permission_check = true ∧ c = check_permissions f)
      ∨ (cfg.enable_dependency_check = true ∧ c = check_dependencies f)
      ∨ c = verify_digital_signature v f := by
  simp [collectedChecks, mem_if_list, List.mem_append, or_assoc]

/-- Membership in the collected error list, error by error. -/
theorem mem_collectedErrors {sha256hex : List Nat → String}
    {v : ModelValidator} {f : MFile} {cfg : ValidationConfig}
    {e : ValidationError} :
    e ∈ collectedErrors sha256hex v f cfg ↔
      (cfg.enable_checksum_verification = true ∧
        (verify_checksum sha256hex f
          (extract_metadata sha256hex f).checksum_sha256).status =
            CheckStatus.Failed ∧
        e = checksumMismatchError)
      ∨ (cfg.enable_format_validation = true ∧
          (validate_file_format (extract_metadata sha256hex f)).status =
            CheckStatus.Failed ∧
          e = invalidFormatError)
      ∨ (cfg.enable_malware_scanning = true ∧
          (scan_for_malware f).status = CheckStatus.Failed ∧
          e = malwareSecurityError)
      ∨ ((verify_digital_signature v f).status = CheckStatus.Failed ∧
          cfg.strict_mode = true ∧ e = signatureSecurityError) := by
  simp [collectedErrors, mem_if_list, List.mem_append, or_assoc,
    and_assoc]

/-! ## Concrete fixtures for witnesses and counterexamples -/

/-- A concrete stand-in for the SHA-256 hex function. -/
def h0 : List Nat → String := fun _ => "D0d0"

/-- A validator with an empty known-signatures table. -/
def v0 : ModelValidator := { known_signatures := [] }

/-- A fully-enabled strict configuration. -/
def cfg_strict : ValidationConfig :=
  { enable_checksum_verification := true
    enable_malware_scanning := true
    enable_format_validation := true
    enable_dependency_check := true
    enable_permission_check := true
    strict_mode := true
    timeout_seconds := 120
    quarantine_suspicious_files := false }

/-- An existing, readable, read-only `model.gguf`. -/
def f_gguf : MFile :=
  { name := "model.gguf", fileExists := true, isFile := true
    content := [71, 71, 85, 70], readonly := true }

/-- A nonexistent path. -/
def f_ghost : MFile :=
  { name := "ghost.bin", fileExists := false, isFile := false
    content := [], readonly := true }

/-- An existing file whose extension matches the malware denylist. -/
def f_exe : MFile :=
  { name := "payload.exe", fileExists := true, isFile := true
    content := [1, 2, 3], readonly := true }

/-- An existing file whose extension matches the denylist only up to
case. -/
def f_EXE : MFile :=
  { name := "payload.EXE", fileExists := true, isFile := true
    content := [1, 2, 3], readonly := true }

/-! ## Claims -/

/-- C4: for every validation run on an existing regular file, the verdict
satisfies `is_valid = (no Critical error) AND (not strict_mode OR no High
error)`; in particular, in non-strict mode High-severity errors alone
never make `is_valid` false. -/
theorem C4_final_verdict_formula (sha256hex : List Nat → String)
    (v : ModelValidator) (f : MFile) (mid : Option String) (fid : String)
    (now : Nat) (cfg : ValidationConfig)
    (hex : f.fileExists = true) (hfile : f.isFile = true) :
    ∃ r, validate_model sha256hex v f mid fid now cfg = Except.ok r ∧
      r.is_valid =
        (!(r.errors.any (fun e => e.severity == ErrorSeverity.Critical)) &&
          (!cfg.strict_mode ||
            !(r.errors.any (fun e => e.severity == ErrorSeverity.High)))) ∧
      (cfg.strict_mode = false →
        r.errors.any (fun e => e.severity == ErrorSeverity.Critical) =
          false →
        r.is_valid = true) := by
  unfold validate_model
  rw [if_pos (check_file_exists_passed f hex hfile)]
  refine ⟨_, rfl, rfl, ?_⟩
  intro hs hc
  show validVerdict cfg (collectedErrors sha256hex v f cfg) = true
  unfold validVerdict
  simp only [hs] at *
  simp [hc]

/-- Witness for C4 at a concrete existing file and the default
configuration. -/
theorem C4_final_verdict_formula_witness :
    ∃ r, validate_model h0 v0 f_gguf none "m0" 0 ValidationConfig.default
        = Except.ok r ∧
      r.is_valid =
        (!(r.errors.any (fun e => e.severity == ErrorSeverity.Critical)) &&
          (!ValidationConfig.default.strict_mode ||
            !(r.errors.any (fun e => e.severity == ErrorSeverity.High)))) ∧
      (ValidationConfig.default.strict_mode = false →
        r.errors.any (fun e => e.severity == ErrorSeverity.Critical) =
          false →
        r.is_valid = true) :=
  C4_final_verdict_formula h0 v0 f_gguf none "m0" 0
    ValidationConfig.default rfl rfl

/-- C5: for a path that does not exist or is not a regular file,
`validate_model` returns `Ok` with `is_valid = false`, exactly the single
failed existence check, the single Critical error, and empty metadata. -/
theorem C5_missing_file_short_circuit (sha256hex : List Nat → String)
    (v : ModelValidator) (f : MFile) (mid : Option String) (fid : String)
    (now : Nat) (cfg : ValidationConfig)
    (hne : f.fileExists = false ∨ f.isFile = false) :
    validate_model sha256hex v f mid fid now cfg = Except.ok
      { model_id := mid.getD fid
        model_path := f.name
        is_valid := false
        validation_time := now
        checks_performed := [{ check_type := CheckType.FileExists,
                               status := CheckStatus.Failed,
                               message := "文件不存在或不是有效文件",
                               details := none }]
        errors := [corruptedFileError f]
        warnings := []
        metadata := emptyMetadata } := by
  have hb : (f.fileExists && f.isFile) = false := by
    rcases hne with h | h <;> simp [h]
  unfold validate_model
  simp [check_file_exists, hb]

/-- Witness for C5 at a concrete nonexistent file. -/
theorem C5_missing_file_short_circuit_witness :
    validate_model h0 v0 f_ghost none "m0" 0 ValidationConfig.default =
      Except.ok
      { model_id := "m0"
        model_path := f_ghost.name
        is_valid := false
        validation_time := 0
        checks_performed := [{ check_type := CheckType.FileExists,
                               status := CheckStatus.Failed,
                               message := "文件不存在或不是有效文件",
                               details := none }]
        errors := [corruptedFileError f_ghost]
        warnings := []
        metadata := emptyMetadata } :=
  C5_missing_file_short_circuit h0 v0 f_ghost none "m0" 0
    ValidationConfig.default (Or.inl rfl)

/-- C3: the checksum step compares the recomputed SHA-256 against the
digest extracted from the same unchanged content, so the Checksum check
is recorded as Passed (whenever it runs) and no High-severity
ChecksumMismatch error is ever contributed. -/
theorem C3_checksum_compares_self (sha256hex : List Nat → String)
    (v : ModelValidator) (f : MFile) (mid : Option String) (fid : String)
    (now : Nat) (cfg : ValidationConfig)
    (hex : f.fileExists = true) (hfile : f.isFile = true) :
    ∃ r, validate_model sha256hex v f mid fid now cfg = Except.ok r ∧
      (∀ c ∈ r.checks_performed, c.check_type = CheckType.Checksum →
        c.status = CheckStatus.Passed) ∧
      (∀ e ∈ r.errors, e.error_type ≠ ErrorType.ChecksumMismatch) ∧
      (cfg.enable_checksum_verification = true →
        ∃ c ∈ r.checks_performed, c.check_type = CheckType.Checksum ∧
          c.status = CheckStatus.Passed) := by
  unfold validate_model
  rw [if_pos (check_file_exists_passed f hex hfile)]
  refine ⟨_, rfl, ?_, ?_, ?_⟩
  · intro c hc hty
    rw [mem_collectedChecks] at hc
    rcases hc with rfl | ⟨_, rfl⟩ | ⟨_, rfl⟩ | ⟨_, rfl⟩ | ⟨_, rfl⟩
      | ⟨_, rfl⟩ | rfl
    · rw [check_file_exists_type] at hty
      cases hty
    · exact verify_checksum_self_passed sha256hex f
    · rw [validate_file_format_type] at hty
      cases hty
    · rw [scan_for_malware_type] at hty
      cases hty
    · rw [check_permissions_type] at hty
      cases hty
    · rw [check_dependencies_type] at hty
      cases hty
    · rw [verify_digital_signature_type] at hty
      cases hty
  · intro e he
    rw [mem_collectedErrors] at he
    rcases he with ⟨_, hst, rfl⟩ | ⟨_, _, rfl⟩ | ⟨_, _, rfl⟩
      | ⟨_, _, rfl⟩
    · rw [verify_checksum_self_passed] at hst
      cases hst
    · simp [invalidFormatError]
    · simp [malwareSecurityError]
    · simp [signatureSecurityError]
  · intro hcv
    exact ⟨verify_checksum sha256hex f
      (extract_metadata sha256hex f).checksum_sha256,
      mem_collectedChecks.mpr (Or.inr (Or.inl ⟨hcv, rfl⟩)),
      verify_checksum_type sha256hex f _,
      verify_checksum_self_passed sha256hex f⟩

/-- Witness for C3 at a concrete existing file with checksum
verification enabled. -/
theorem C3_checksum_compares_self_witness :
    ∃ r, validate_model h0 v0 f_gguf none "m0" 0 ValidationConfig.default
        = Except.ok r ∧
      (∀ c ∈ r.checks_performed, c.check_type = CheckType.Checksum →
        c.status = CheckStatus.Passed) ∧
      (∀ e ∈ r.errors, e.error_type ≠ ErrorType.ChecksumMismatch) ∧
      (ValidationConfig.default.enable_checksum_verification = true →
        ∃ c ∈ r.checks_performed, c.check_type = CheckType.Checksum ∧
          c.status = CheckStatus.Passed) :=
  C3_checksum_compares_self h0 v0 f_gguf none "m0" 0
    ValidationConfig.default rfl rfl

/-- C6: for an existing file with a denylisted extension and malware
scanning enabled, the malware check fails, a Critical SecurityRisk error
is recorded, and `is_valid` is false regardless of the remaining
configuration. -/
theorem C6_denylisted_extension_invalidates (sha256hex : List Nat → String)
    (v : ModelValidator) (f : MFile) (mid : Option String) (fid : String)
    (now : Nat) (cfg : ValidationConfig)
    (hex : f.fileExists = true) (hfile : f.isFile = true)
    (hmal : cfg.enable_malware_scanning = true)
    (hext : (rustExtension f.name).getD "" ∈ suspicious_extensions) :
    ∃ r, validate_model sha256hex v f mid fid now cfg = Except.ok r ∧
      (∃ c ∈ r.checks_performed, c.check_type = CheckType.MalwareCheck ∧
        c.status = CheckStatus.Failed) ∧
      (∃ e ∈ r.errors, e.error_type = ErrorType.SecurityRisk ∧
        e.severity = ErrorSeverity.Critical) ∧
      r.is_valid = false := by
  unfold validate_model
  rw [if_pos (check_file_exists_passed f hex hfile)]
  have hscan := scan_for_malware_failed f hext
  have hmem : malwareSecurityError ∈ collectedErrors sha256hex v f cfg :=
    mem_collectedErrors.mpr (Or.inr (Or.inr (Or.inl ⟨hmal, hscan, rfl⟩)))
  refine ⟨_, rfl, ?_, ?_, ?_⟩
  · exact ⟨scan_for_malware f,
      mem_collectedChecks.mpr
        (Or.inr (Or.inr (Or.inr (Or.inl ⟨hmal, rfl⟩)))),
      scan_for_malware_type f, hscan⟩
  · exact ⟨malwareSecurityError, hmem, rfl, rfl⟩
  · exact validVerdict_eq_false_of_critical hmem rfl

/-- Witness for C6 at a concrete `payload.exe` under the fully-enabled
strict configuration. -/
theorem C6_denylisted_extension_invalidates_witness :
    ∃ r, validate_model h0 v0 f_exe none "m0" 0 cfg_strict =
        Except.ok r ∧
      (∃ c ∈ r.checks_performed, c.check_type = CheckType.MalwareCheck ∧
        c.status = CheckStatus.Failed) ∧
      (∃ e ∈ r.errors, e.error_type = ErrorType.SecurityRisk ∧
        e.severity = ErrorSeverity.Critical) ∧
      r.is_valid = false :=
  C6_denylisted_extension_invalidates h0 v0 f_exe none "m0" 0 cfg_strict
    rfl rfl rfl (by decide)

/-- C10: the malware denylist match is case-sensitive: a file whose
extension equals a denylist entry only after lowercasing (unlike format
detection, the scan does not lowercase) passes the malware check and
produces no Critical error. -/
theorem C10_malware_scan_case_sensitive (sha256hex : List Nat → String)
    (v : ModelValidator) (f : MFile) (mid : Option String) (fid : String)
    (now : Nat) (cfg : ValidationConfig)
    (hex : f.fileExists = true) (hfile : f.isFile = true)
    (hmal : cfg.enable_malware_scanning = true)
    (_hlow : lowerStr ((rustExtension f.name).getD "") ∈
      suspicious_extensions)
    (hne : (rustExtension f.name).getD "" ∉ suspicious_extensions) :
    ∃ r, validate_model sha256hex v f mid fid now cfg = Except.ok r ∧
      (∃ c ∈ r.checks_performed, c.check_type = CheckType.MalwareCheck ∧
        c.status = CheckStatus.Passed) ∧
      (∀ e ∈ r.errors, e.severity ≠ ErrorSeverity.Critical) := by
  unfold validate_model
  rw [if_pos (check_file_exists_passed f hex hfile)]
  refine ⟨_, rfl, ?_, ?_⟩
  · exact ⟨scan_for_malware f,
      mem_collectedChecks.mpr
        (Or.inr (Or.inr (Or.inr (Or.inl ⟨hmal, rfl⟩)))),
      scan_for_malware_type f, scan_for_malware_passed f hne⟩
  · intro e he
    rw [mem_collectedErrors] at he
    rcases he with ⟨_, _, rfl⟩ | ⟨_, _, rfl⟩ | ⟨_, hst, rfl⟩
      | ⟨_, _, rfl⟩
    · simp [checksumMismatchError]
    · simp [invalidFormatError]
    · rw [scan_for_malware_passed f hne] at hst
      cases hst
    · simp [signatureSecurityError]

/-- Witness for C10 at a concrete `payload.EXE`. -/
theorem C10_malware_scan_case_sensitive_witness :
    ∃ r, validate_model h0 v0 f_EXE none "m0" 0 cfg_strict =
        Except.ok r ∧
      (∃ c ∈ r.checks_performed, c.check_type = CheckType.MalwareCheck ∧
        c.status = CheckStatus.Passed) ∧
      (∀ e ∈ r.errors, e.severity ≠ ErrorSeverity.Critical) :=
  C10_malware_scan_case_sensitive h0 v0 f_EXE none "m0" 0 cfg_strict
    rfl rfl rfl (by decide) (by decide)

/-- C1 counterexample: a concrete existing, readable regular file whose
name is not in the known-signatures table, validated in strict mode with
everything enabled, yields `is_valid = true`, contradicting the claim
that the missing signature forces `is_valid = false`. -/
theorem C1_counterexample :
    f_gguf.fileExists = true ∧ f_gguf.isFile = true ∧
    f_gguf.name ∉ v0.known_signatures ∧ cfg_strict.strict_mode = true ∧
    (exceptOk? (validate_model h0 v0 f_gguf none "m0" 0
      cfg_strict)).map (fun r => r.is_valid) = some true := by
  refine ⟨rfl, rfl, ?_, rfl, rfl⟩
  simp [v0]

/-- C1 as amended: for an existing, readable regular file whose name is
absent from the known-signatures table, the digital-signature check is
recorded as Warning (never Failed), an unsigned-file warning is
appended, and no signature-related High-severity SecurityRisk error is
added even when `strict_mode` is set — so the missing signature by
itself never forces `is_valid = false`. -/
theorem C1_amended_unsigned_is_warning_only (sha256hex : List Nat → String)
    (v : ModelValidator) (f : MFile) (mid : Option String) (fid : String)
    (now : Nat) (cfg : ValidationConfig)
    (hex : f.fileExists = true) (hfile : f.isFile = true)
    (hname : f.name ∉ v.known_signatures) :
    ∃ r, validate_model sha256hex v f mid fid now cfg = Except.ok r ∧
      (∃ c ∈ r.checks_performed,
        c.check_type = CheckType.DigitalSignature ∧
        c.status = CheckStatus.Warning) ∧
      (∀ e ∈ r.errors, ¬(e.error_type = ErrorType.SecurityRisk ∧
        e.severity = ErrorSeverity.High)) ∧
      unsignedFileWarning ∈ r.warnings := by
  unfold validate_model
  rw [if_pos (check_file_exists_passed f hex hfile)]
  have hsig := verify_digital_signature_warning v f hname
  refine ⟨_, rfl, ?_, ?_, ?_⟩
  · exact ⟨verify_digital_signature v f,
      mem_collectedChecks.mpr (Or.inr (Or.inr (Or.inr (Or.inr
        (Or.inr (Or.inr rfl)))))),
      verify_digital_signature_type v f, hsig⟩
  · intro e he
    rw [mem_collectedErrors] at he
    rcases he with ⟨_, _, rfl⟩ | ⟨_, _, rfl⟩ | ⟨_, _, rfl⟩
      | ⟨hst, _, rfl⟩
    · simp [checksumMismatchError]
    · simp [invalidFormatError]
    · simp [malwareSecurityError]
    · rw [hsig] at hst
      cases hst
  · simp [collectedWarnings, List.mem_append, mem_if_list, hsig]

/-- Witness for the amended C1 at a concrete unsigned file in strict
mode. -/
theorem C1_amended_unsigned_is_warning_only_witness :
    ∃ r, validate_model h0 v0 f_gguf none "m0" 0 cfg_strict =
        Except.ok r ∧
      (∃ c ∈ r.checks_performed,
        c.check_type = CheckType.DigitalSignature ∧
        c.status = CheckStatus.Warning) ∧
      (∀ e ∈ r.errors, ¬(e.error_type = ErrorType.SecurityRisk ∧
        e.severity = ErrorSeverity.High)) ∧
      unsignedFileWarning ∈ r.warnings :=
  C1_amended_unsigned_is_warning_only h0 v0 f_gguf none "m0" 0 cfg_strict
    rfl rfl (by simp [v0])

/-- The extensions recognized by the extension arm of
`detect_model_format` (lowercased). -/
def knownExts : List String :=
  ["gguf", "ggml", "safetensors", "pt", "pth", "pb", "onnx"]

/-- C7: format classification matches the lowercased extension first; an
absent or unrecognized extension falls back to the `GGUF`/`GGML` magic
bytes; otherwise the result is `Unknown` carrying the observed extension
string.  Concretely: `model.gguf` with any content is GGUF, an
extension-less file starting with `GGUF` is GGUF, and `thing.xyz` with
unrecognized content is `Unknown "xyz"`. -/
theorem C7_format_classification :
    (∀ content, detect_model_format "model.gguf" content =
      ModelFormat.GGUF)
    ∧ (∀ content, magicGGUF.isPrefixOf content = true →
        detect_model_format "noext" content = ModelFormat.GGUF)
    ∧ detect_model_format "thing.xyz" [0, 1, 2] = ModelFormat.Unknown "xyz"
    ∧ (∀ name content,
        lowerStr ((rustExtension name).getD "") = "gguf" →
        detect_model_format name content = ModelFormat.GGUF)
    ∧ (∀ name content,
        lowerStr ((rustExtension name).getD "") = "ggml" →
        detect_model_format name content = ModelFormat.GGML)
    ∧ (∀ name content,
        lowerStr ((rustExtension name).getD "") = "safetensors" →
        detect_model_format name content = ModelFormat.SafeTensors)
    ∧ (∀ name content,
        (lowerStr ((rustExtension name).getD "") = "pt" ∨
          lowerStr ((rustExtension name).getD "") = "pth") →
        detect_model_format name content = ModelFormat.PyTorch)
    ∧ (∀ name content,
        lowerStr ((rustExtension name).getD "") = "pb" →
        detect_model_format name content = ModelFormat.TensorFlow)
    ∧ (∀ name content,
        lowerStr ((rustExtension name).getD "") = "onnx" →
        detect_model_format name content = ModelFormat.ONNX)
    ∧ (∀ name content,
        lowerStr ((rustExtension name).getD "") ∉ knownExts →
        magicGGUF.isPrefixOf content = true →
        detect_model_format name content = ModelFormat.GGUF)
    ∧ (∀ name content,
        lowerStr ((rustExtension name).getD "") ∉ knownExts →
        magicGGUF.isPrefixOf content = false →
        magicGGML.isPrefixOf content = true →
        detect_model_format name content = ModelFormat.GGML)
    ∧ (∀ name content,
        lowerStr ((rustExtension name).getD "") ∉ knownExts →
        magicGGUF.isPrefixOf content = false →
        magicGGML.isPrefixOf content = false →
        detect_model_format name content =
          ModelFormat.Unknown ((rustExtension name).getD "")) := by
  have hgguf : ∀ name content,
      lowerStr ((rustExtension name).getD "") = "gguf" →
      detect_model_format name content = ModelFormat.GGUF := by
    intro name content h
    simp only [detect_model_format]
    rw [h]
    simp
  have hnots : ∀ name, lowerStr ((rustExtension name).getD "") ∉ knownExts →
      ∀ s, s ∈ knownExts → ¬ lowerStr ((rustExtension name).getD "") = s := by
    intro name hnot s hs hh
    exact hnot (hh ▸ hs)
  have hfall : ∀ name content,
      lowerStr ((rustExtension name).getD "") ∉ knownExts →
      detect_model_format name content =
        (if magicGGUF.isPrefixOf content then ModelFormat.GGUF
         else if magicGGML.isPrefixOf content then ModelFormat.GGML
         else ModelFormat.Unknown ((rustExtension name).getD "")) := by
    intro name content hnot
    simp only [detect_model_format]
    rw [if_neg (hnots name hnot "gguf" (by decide)),
      if_neg (hnots name hnot "ggml" (by decide)),
      if_neg (hnots name hnot "safetensors" (by decide)),
      if_neg ?_, if_neg (hnots name hnot "pb" (by decide)),
      if_neg (hnots name hnot "onnx" (by decide))]
    rintro (h | h)
    · exact hnots name hnot "pt" (by decide) h
    · exact hnots name hnot "pth" (by decide) h
  refine ⟨fun content => hgguf "model.gguf" content (by decide),
    fun content h => ?_, by decide,
    hgguf, ?_, ?_, ?_, ?_, ?_, ?_, ?_, ?_⟩
  · rw [hfall "noext" content (by decide), if_pos h]
  · intro name content h
    simp only [detect_model_format]
    rw [h]
    simp
  · intro name content h
    simp only [detect_model_format]
    rw [h]
    simp
  · intro name content h
    simp only [detect_model_format]
    rcases h with h | h <;> rw [h] <;> simp
  · intro name content h
    simp only [detect_model_format]
    rw [h]
    simp
  · intro name content h
    simp only [detect_model_format]
    rw [h]
    simp
  · intro name content hnot hm
    rw [hfall name content hnot, if_pos hm]
  · intro name content hnot hm1 hm2
    rw [hfall name content hnot, if_neg (by simp [hm1]), if_pos hm2]
  · intro name content hnot hm1 hm2
    rw [hfall name content hnot, if_neg (by simp [hm1]),
      if_neg (by simp [hm2])]

/-- Witness for C7: the three concrete classifications of the claim plus
a case-insensitive extension match, with every hypothesis discharged by
computation. -/
theorem C7_format_classification_witness :
    detect_model_format "model.gguf" [9, 9] = ModelFormat.GGUF
    ∧ detect_model_format "noext" [71, 71, 85, 70] = ModelFormat.GGUF
    ∧ detect_model_format "UPPER.GGML" [] = ModelFormat.GGML
    ∧ detect_model_format "thing.xyz" [0, 1, 2] =
        ModelFormat.Unknown "xyz" :=
  ⟨C7_format_classification.1 [9, 9],
   C7_format_classification.2.1 [71, 71, 85, 70] (by decide),
   C7_format_classification.2.2.2.2.1 "UPPER.GGML" [] (by decide),
   C7_format_classification.2.2.1⟩

/-- C8: download-side checksum verification is case-insensitive for every
supported algorithm: it succeeds exactly when the expected digest agrees
with the recomputed one up to letter case — in particular the
fully-uppercased and the fully-lowercased actual digest both verify —
and a mismatch fails with a `ChecksumMismatch` carrying both the
expected and the actual digest. -/
theorem C8_checksum_comparison_case_insensitive (hashes : HashFns)
    (content : List Nat) (ty : ChecksumType) (expected : String) :
    (lowerStr expected =
        lowerStr (ModelDownloadManager.calculate_checksum hashes content
          ty) →
      ModelDownloadManager.verify_checksum hashes content expected ty =
        Except.ok ())
    ∧ (lowerStr expected ≠
        lowerStr (ModelDownloadManager.calculate_checksum hashes content
          ty) →
      ModelDownloadManager.verify_checksum hashes content expected ty =
        Except.error (DownloadError.ChecksumMismatch expected
          (ModelDownloadManager.calculate_checksum hashes content ty)))
    ∧ ModelDownloadManager.verify_checksum hashes content
        (upperStr (ModelDownloadManager.calculate_checksum hashes content
          ty)) ty = Except.ok ()
    ∧ ModelDownloadManager.verify_checksum hashes content
        (lowerStr (ModelDownloadManager.calculate_checksum hashes content
          ty)) ty = Except.ok () := by
  have hok : ∀ e, lowerStr e =
      lowerStr (ModelDownloadManager.calculate_checksum hashes content
        ty) →
      ModelDownloadManager.verify_checksum hashes content e ty =
        Except.ok () := by
    intro e h
    simp [ModelDownloadManager.verify_checksum, h]
  refine ⟨hok expected, ?_, hok _ (lowerStr_upperStr _),
    hok _ (lowerStr_lowerStr _)⟩
  intro h
  have hne : lowerStr
      (ModelDownloadManager.calculate_checksum hashes content ty) ≠
      lowerStr expected := fun hh => h hh.symm
  simp only [ModelDownloadManager.verify_checksum]
  rw [if_pos hne]

/-- A concrete hash-function triple whose digests mix letter case. -/
def hashesW : HashFns :=
  { md5 := fun _ => "AbC", sha256 := fun _ => "AbC"
    sha512 := fun _ => "AbC" }

/-- Witness for C8: an upper-case and a lower-case expected digest both
verify against the mixed-case actual digest, and a mismatch reports both
digests. -/
theorem C8_checksum_comparison_case_insensitive_witness :
    ModelDownloadManager.verify_checksum hashesW [1] "ABC"
      ChecksumType.SHA256 = Except.ok ()
    ∧ ModelDownloadManager.verify_checksum hashesW [1] "abc"
      ChecksumType.SHA256 = Except.ok ()
    ∧ ModelDownloadManager.verify_checksum hashesW [1] "zzz"
      ChecksumType.MD5 = Except.error
        (DownloadError.ChecksumMismatch "zzz" "AbC") :=
  ⟨(C8_checksum_comparison_case_insensitive hashesW [1]
      ChecksumType.SHA256 "ABC").1 (by decide),
   (C8_checksum_comparison_case_insensitive hashesW [1]
      ChecksumType.SHA256 "abc").1 (by decide),
   (C8_checksum_comparison_case_insensitive hashesW [1]
      ChecksumType.MD5 "zzz").2.1 (by decide)⟩

theorem isPrefixOf_append_self (l t : RPath) :
    l.isPrefixOf (l ++ t) = true := by
  induction l with
  | nil => simp
  | cons a as ih => simp [ih]

/-- C9: `install_model` deletes the source exactly when
`keep_temp_files = false` and the source path lies under the manager's
temp directory; a source outside the temp directory (or any source under
`keep_temp_files = true`) survives, and every path other than the source
and the install directory's contents is untouched. -/
theorem C9_source_deletion_scoped_to_temp (hashes : HashFns) (now : Nat)
    (mgr : ModelDownloadManager) (model_id : String) (model_path : RPath)
    (config : InstallationConfig) (fs : FS) (src : FileData) (nm : String)
    (hsrc : lookupFS fs model_path = some src)
    (hnm : model_path.getLast? = some nm) :
    ∃ inst fs',
      ModelDownloadManager.install_model hashes now mgr model_id
        model_path config fs = Except.ok (inst, fs') ∧
      (∀ p, p ≠ model_path → inst.install_path.isPrefixOf p = false →
        lookupFS fs' p = lookupFS fs p) ∧
      (lookupFS fs' model_path = none →
        config.keep_temp_files = false ∧
        mgr.temp_dir.isPrefixOf model_path = true) ∧
      ((config.keep_temp_files = true ∨
          mgr.temp_dir.isPrefixOf model_path = false) →
        lookupFS fs' model_path ≠ none) := by
  simp only [ModelDownloadManager.install_model, hnm, hsrc]
  set ip := config.custom_install_path.getD
    (mgr.download_dir ++ ["installed", model_id]) with hip
  set dsc := FileData.json (descriptorJson model_id now "1.0.0"
    (dataLen src)
    (if config.auto_verify then
      ModelDownloadManager.calculate_checksum hashes (dataBytes src)
        ChecksumType.SHA256
    else "")) with hdsc
  set fs2 := insertFS (insertFS fs (ip ++ [nm]) src)
    (ip ++ ["model.json"]) dsc with hfs2
  have hfs2lu : ∀ p, ip.isPrefixOf p = false →
      lookupFS fs2 p = lookupFS fs p := by
    intro p hpref
    have h1 : p ≠ ip ++ ["model.json"] := by
      intro hq
      rw [hq, isPrefixOf_append_self] at hpref
      cases hpref
    have h2 : p ≠ ip ++ [nm] := by
      intro hq
      rw [hq, isPrefixOf_append_self] at hpref
      cases hpref
    rw [hfs2, lookupFS_insertFS_ne _ _ _ _ h1, lookupFS_insertFS_ne _ _ _ _ h2]
  have hfs2ne : lookupFS fs2 model_path ≠ none := by
    by_cases h1 : model_path = ip ++ ["model.json"]
    · rw [hfs2, h1, lookupFS_insertFS_self]
      simp
    · by_cases h2 : model_path = ip ++ [nm]
      · rw [hfs2, lookupFS_insertFS_ne _ _ _ _ h1, h2,
          lookupFS_insertFS_self]
        simp
      · rw [hfs2, lookupFS_insertFS_ne _ _ _ _ h1,
          lookupFS_insertFS_ne _ _ _ _ h2, hsrc]
        simp
  by_cases hdel : (!config.keep_temp_files &&
      mgr.temp_dir.isPrefixOf model_path) = true
  · rw [if_pos hdel]
    refine ⟨_, _, rfl, ?_, ?_, ?_⟩
    · intro p hp hpref
      rw [lookupFS_eraseFS_ne _ _ _ hp]
      exact hfs2lu p hpref
    · intro _
      have := hdel
      rw [Bool.and_eq_true, Bool.not_eq_true'] at this
      exact this
    · intro hor
      rw [Bool.and_eq_true, Bool.not_eq_true'] at hdel
      rcases hor with hk | hpref
      · rw [hk] at hdel
        cases hdel.1
      · rw [hpref] at hdel
        cases hdel.2
  · rw [if_neg hdel]
    refine ⟨_, _, rfl, ?_, ?_, ?_⟩
    · intro p _ hpref
      exact hfs2lu p hpref
    · intro hnone
      exact absurd hnone hfs2ne
    · intro _
      exact hfs2ne

/-! ## Fixtures for the install / list round trip -/

/-- A concrete hash-function triple for install runs. -/
def hashes0 : HashFns :=
  { md5 := fun _ => "m0", sha256 := fun _ => "s0", sha512 := fun _ => "w0" }

/-- A manager rooted at `/root`. -/
def mgr0 : ModelDownloadManager := ModelDownloadManager.new ["root"]

/-- A source file inside the manager's temp directory. -/
def mp0 : RPath := ["root", "temp", "a.bin"]

/-- A file system holding only the source artifact. -/
def fs0 : FS := [(mp0, FileData.raw [1, 2, 3])]

/-- A source path outside the manager's directories. -/
def mpOut : RPath := ["home", "user", "b.bin"]

/-- A file system holding only the outside artifact. -/
def fsOut : FS := [(mpOut, FileData.raw [9])]

/-- Witness for C9: a concrete install from the temp directory, showing
the frame, the deletion characterization, and the no-deletion guarantee
instantiated. -/
theorem C9_source_deletion_scoped_to_temp_witness :
    ∃ inst fs',
      ModelDownloadManager.install_model hashes0 7 mgr0 "id1" mp0
        InstallationConfig.default fs0 = Except.ok (inst, fs') ∧
      (∀ p, p ≠ mp0 → inst.install_path.isPrefixOf p = false →
        lookupFS fs' p = lookupFS fs0 p) ∧
      (lookupFS fs' mp0 = none →
        InstallationConfig.default.keep_temp_files = false ∧
        mgr0.temp_dir.isPrefixOf mp0 = true) ∧
      ((InstallationConfig.default.keep_temp_files = true ∨
          mgr0.temp_dir.isPrefixOf mp0 = false) →
        lookupFS fs' mp0 ≠ none) :=
  C9_source_deletion_scoped_to_temp hashes0 7 mgr0 "id1" mp0
    InstallationConfig.default fs0 (FileData.raw [1, 2, 3]) "a.bin" rfl rfl

/-- C2 (code bug): installing an artifact writes a `model.json` holding
only five of the eight fields `ModelInstallation` requires, so the
subsequent `get_installed_models` fails to deserialize it and returns no
record at all for the installed id — the round trip the spec states does
not hold.  The descriptor is present on disk, yet the listing is empty. -/
theorem C2_install_list_roundtrip_fails :
    ∃ inst fs',
      ModelDownloadManager.install_model hashes0 7 mgr0 "id1" mp0
        InstallationConfig.default fs0 = Except.ok (inst, fs') ∧
      lookupFS fs' (["root", "installed", "id1", "model.json"]) =
        some (FileData.json (descriptorJson "id1" 7 "1.0.0" 3 "s0")) ∧
      parseModelInstallation
        (FileData.json (descriptorJson "id1" 7 "1.0.0" 3 "s0")) = none ∧
      ModelDownloadManager.get_installed_models mgr0 fs' = [] := by
  exact ⟨_, _, rfl, rfl, rfl, rfl⟩

end BurnCloud
